import Mathlib

/-!
Verification of the geometric selection and compositing pipeline of the
18Plus-Face-Stitch repository.

Shallow embedding conventions:
- JavaScript numbers that hold display coordinates and scale factors are
  modelled as rationals; `Math.floor` is `Int.floor`, `Math.round` is
  floor of the value plus one half (the JavaScript rounding rule).
- Division by zero in the rationals yields 0 where JavaScript would yield
  Infinity; no claim below exercises that corner.
- React state updates inside one handler are collapsed to a single pure
  state transition; calls to a consumer callback are collected as a list
  of emitted values.
-/

/-- JavaScript `Math.round`: half-way cases round toward positive infinity. -/
def jsRound (q : ℚ) : ℤ := Int.floor (q + 1 / 2)

/-- src/types.ts: a selection rectangle in image-native pixel units.
The fields are integers because the overlay produces them with `Math.floor`. -/
structure SelectionBox where
  x : ℤ
  y : ℤ
  width : ℤ
  height : ℤ
deriving DecidableEq, Repr

/-! ## SelectionOverlay (the drag gesture state machine)

Embedding of the mouse handlers of `SelectionOverlay` in the unnamed
component source file (handleMouseDown, handleMouseMove, handleMouseUp).
The geometry record packs `getBoundingClientRect()` of the image together
with its natural size; the handlers read it fresh at every event. -/

/-- The display rectangle of the rendered image and its natural size. -/
structure Geom where
  rectLeft : ℚ
  rectTop : ℚ
  rectW : ℚ
  rectH : ℚ
  naturalW : ℚ
  naturalH : ℚ
deriving DecidableEq, Repr

/-- The component state: `isDragging`, `startPos`, `currentBox`. -/
structure OverlaySt where
  isDragging : Bool
  startPos : Option (ℚ × ℚ)
  currentBox : Option SelectionBox
deriving DecidableEq, Repr

/-- Initial overlay state: not dragging, no anchor, no box. -/
def ovInit : OverlaySt := ⟨false, none, none⟩

/-- `handleMouseDown`: record the anchor in display coordinates, start
dragging, clear any previous box, and notify the consumer with null.
The second component collects the `onSelectionChange` emissions. -/
def handleMouseDown (g : Geom) (cx cy : ℚ) :
    OverlaySt × List (Option SelectionBox) :=
  let x := cx - g.rectLeft
  let y := cy - g.rectTop
  (⟨true, some (x, y), none⟩, [none])

/-- `handleMouseMove`: build the live square box. The side is
`max |dx| |dy|` in display pixels, the origin is moved by the side length
when the drag goes left or up, the origin alone is clamped to be
nonnegative, and the native box floors the scaled origin and width while
forcing the native height to equal the native width.
The empty `if (originX + finalW > rect.width)` block of the source has no
effect and is omitted. -/
def handleMouseMove (g : Geom) (s : OverlaySt) (cx cy : ℚ) :
    OverlaySt × List (Option SelectionBox) :=
  match s.isDragging, s.startPos with
  | true, some sp =>
      let currentX := cx - g.rectLeft
      let currentY := cy - g.rectTop
      let width := currentX - sp.1
      let height := currentY - sp.2
      let size := max |width| |height|
      let signX : ℤ := if width < 0 then -1 else 1
      let signY : ℤ := if height < 0 then -1 else 1
      let finalW := size
      let finalH := size
      let originX0 := if signX < 0 then sp.1 - finalW else sp.1
      let originY0 := if signY < 0 then sp.2 - finalH else sp.2
      let originX := if originX0 < 0 then 0 else originX0
      let originY := if originY0 < 0 then 0 else originY0
      let scaleX := g.naturalW / g.rectW
      let scaleY := g.naturalH / g.rectH
      let naturalW := Int.floor (finalW * scaleX)
      let naturalH := naturalW
      let naturalBox : SelectionBox :=
        ⟨Int.floor (originX * scaleX), Int.floor (originY * scaleY),
          naturalW, naturalH⟩
      ({ s with currentBox := some naturalBox }, [])
  | _, _ => (s, [])

/-- `handleMouseUp`: stop dragging; if a live box exists, commit it to the
consumer when its width exceeds 50 native pixels, otherwise discard it and
notify the consumer with null. -/
def handleMouseUp (s : OverlaySt) :
    OverlaySt × List (Option SelectionBox) :=
  let s1 := { s with isDragging := false }
  match s.currentBox with
  | some b =>
      if b.width > 50 then (s1, [some b])
      else ({ s1 with currentBox := none }, [none])
  | none => (s1, [])

/-- Pointer events delivered to the overlay. `up` also stands for the
mouse-leave event, which the component wires to the same handler. -/
inductive OvEv where
  | down (cx cy : ℚ)
  | move (cx cy : ℚ)
  | up
deriving DecidableEq, Repr

/-- One event step of the overlay. -/
def ovStep (g : Geom) (s : OverlaySt) : OvEv → OverlaySt × List (Option SelectionBox)
  | .down cx cy => handleMouseDown g cx cy
  | .move cx cy => handleMouseMove g s cx cy
  | .up => handleMouseUp s

/-- Run a list of pointer events, concatenating all consumer emissions. -/
def ovRun (g : Geom) : OverlaySt → List OvEv → OverlaySt × List (Option SelectionBox)
  | s, [] => (s, [])
  | s, e :: es =>
      ((ovRun g (ovStep g s e).1 es).1,
        (ovStep g s e).2 ++ (ovRun g (ovStep g s e).1 es).2)

/-- The square invariant on a live box. -/
def squareInv (s : OverlaySt) : Prop :=
  ∀ b, s.currentBox = some b → b.width = b.height

/-- A 1 to 1 display geometry used by concrete runs: the image is rendered
at its natural 800 by 600 size with the rectangle at the viewport origin. -/
def g0 : Geom := ⟨0, 0, 800, 600, 800, 600⟩

/-- The drag trace of the concrete scenario: anchor at (100,100), move to
(250,300), release. -/
def dragTrace : List OvEv := [.down 100 100, .move 250 300, .up]

lemma ovStep_sound (g : Geom) (s : OverlaySt) (e : OvEv) (hs : squareInv s) :
    squareInv (ovStep g s e).1 ∧
      ∀ b, some b ∈ (ovStep g s e).2 → b.width = b.height := by
  obtain ⟨d, p, c⟩ := s
  cases e with
  | down cx cy =>
      constructor
      · intro b hb; exact absurd hb (by simp [ovStep, handleMouseDown])
      · intro b hb; simp [ovStep, handleMouseDown] at hb
  | move cx cy =>
      cases d with
      | false => exact ⟨hs, by intro b hb; simp [ovStep, handleMouseMove] at hb⟩
      | true =>
          cases p with
          | none => exact ⟨hs, by intro b hb; simp [ovStep, handleMouseMove] at hb⟩
          | some sp =>
              constructor
              · intro b hb
                simp [ovStep, handleMouseMove] at hb
                simp [← hb]
              · intro b hb; simp [ovStep, handleMouseMove] at hb
  | up =>
      cases c with
      | none =>
          constructor
          · intro b hb; exact absurd hb (by simp [ovStep, handleMouseUp])
          · intro b hb; simp [ovStep, handleMouseUp] at hb
      | some b0 =>
          have hb0 : b0.width = b0.height := hs b0 rfl
          by_cases hw : b0.width > 50
          · constructor
            · intro b hb
              simp [ovStep, handleMouseUp, hw] at hb
              subst hb; exact hb0
            · intro b hb
              simp [ovStep, handleMouseUp, hw] at hb
              subst hb; exact hb0
          · constructor
            · intro b hb; exact absurd hb (by simp [ovStep, handleMouseUp, hw])
            · intro b hb; simp [ovStep, handleMouseUp, hw] at hb

lemma ovRun_sound (g : Geom) :
    ∀ (es : List OvEv) (s : OverlaySt), squareInv s →
      ∀ b, some b ∈ (ovRun g s es).2 → b.width = b.height := by
  intro es
  induction es with
  | nil => intro s _ b hb; simp [ovRun] at hb
  | cons e es ih =>
      intro s hs b hb
      simp only [ovRun, List.mem_append] at hb
      rcases hb with h1 | h2
      · exact (ovStep_sound g s e hs).2 b h1
      · exact ih _ (ovStep_sound g s e hs).1 b h2

/-- Claim C1: for every display geometry and every pointer event trace
starting from the initial overlay state, every SelectionBox that is
committed (emitted to the consumer as a non-null value) satisfies
`width = height` exactly in native pixels, including when the two axes
have different display-to-native scale factors. -/
theorem c1_committed_box_is_square (g : Geom) (es : List OvEv) (b : SelectionBox)
    (hb : some b ∈ (ovRun g ovInit es).2) : b.width = b.height :=
  ovRun_sound g es ovInit (by intro b hb; simp [ovInit] at hb) b hb

theorem c1_witness :
    some (⟨100, 100, 200, 200⟩ : SelectionBox) ∈ (ovRun g0 ovInit dragTrace).2 ∧
      (⟨100, 100, 200, 200⟩ : SelectionBox).width =
        (⟨100, 100, 200, 200⟩ : SelectionBox).height := by
  have hmem : some (⟨100, 100, 200, 200⟩ : SelectionBox) ∈ (ovRun g0 ovInit dragTrace).2 := by
    norm_num [ovRun, ovStep, handleMouseDown, handleMouseMove, handleMouseUp,
      g0, ovInit, dragTrace]
  exact ⟨hmem, c1_committed_box_is_square g0 dragTrace ⟨100, 100, 200, 200⟩ hmem⟩

/-- Claim C3: on gesture end with a live box `b`, the box is committed
(emitted to the consumer) exactly when `b.width > 50`; when
`b.width ≤ 50` the box is discarded (cleared from the state) and null is
emitted to the consumer instead. -/
theorem c3_commit_iff_width_gt_50 (s : OverlaySt) (b : SelectionBox)
    (h : s.currentBox = some b) :
    (b.width > 50 →
        handleMouseUp s = ({ s with isDragging := false }, [some b])) ∧
      (b.width ≤ 50 →
        handleMouseUp s =
          ({ s with isDragging := false, currentBox := none }, [none])) := by
  constructor
  · intro hw; simp [handleMouseUp, h, hw]
  · intro hw
    have hw2 : ¬ b.width > 50 := by omega
    simp [handleMouseUp, h, hw2]

theorem c3_witness :
    handleMouseUp ⟨true, some (0, 0), some ⟨10, 10, 60, 60⟩⟩ =
      (⟨false, some (0, 0), some ⟨10, 10, 60, 60⟩⟩, [some ⟨10, 10, 60, 60⟩]) :=
  (c3_commit_iff_width_gt_50 ⟨true, some (0, 0), some ⟨10, 10, 60, 60⟩⟩
    ⟨10, 10, 60, 60⟩ rfl).1 (by norm_num)

/-- Claim C8: with 1 to 1 display scaling, a drag anchored at (100,100)
ending at (250,300) first notifies the consumer with null at gesture
start and then commits the box with x 100, y 100, width 200, height 200:
the side is `max |dx| |dy| = 200` and the top-left stays at the anchor
because the drag moves right and down. -/
theorem c8_concrete_drag :
    (ovRun g0 ovInit dragTrace).2 =
      [none, some (⟨100, 100, 200, 200⟩ : SelectionBox)] := by
  norm_num [ovRun, ovStep, handleMouseDown, handleMouseMove, handleMouseUp,
    g0, ovInit, dragTrace]

/-- Claim C10: a pointer-down at any point followed immediately by
pointer-up, with no intervening move, emits exactly one notification — the
null sent at gesture start — and ends with no live box and no commit. -/
theorem c10_click_leaves_selection_null (g : Geom) (cx cy : ℚ) :
    ovRun g ovInit [OvEv.down cx cy, OvEv.up] =
      (⟨false, some (cx - g.rectLeft, cy - g.rectTop), none⟩, [none]) := rfl

/-! ## Feathered compositor (src/App.tsx, createComposite)

The output canvas is sized to the natural dimensions of the base image,
the base is drawn at the origin, and the feather-masked patch canvas is
drawn scaled into the destination rectangle given by the rounded
selection. Canvas drawing writes only inside the destination rectangle,
so the composite is modelled with the blended patch layer abstracted as
an arbitrary pixel function: the locality and dimension guarantees hold
for every such layer. The selection fields are integers, so the
`Math.round` calls of the source are the identity on them. -/

/-- A decoded bitmap: natural dimensions and a total pixel function. -/
structure Bitmap (α : Type) where
  width : ℕ
  height : ℕ
  pix : ℤ → ℤ → α

/-- The feather radius of createComposite:
`Math.min(patchW, patchH) * 0.15`. -/
def feather (patchW patchH : ℕ) : ℚ := ((min patchW patchH : ℕ) : ℚ) * 0.15

/-- createComposite: base drawn at the origin onto a canvas of the base
natural size, then the feathered patch layer drawn over the destination
rectangle `(sel.x, sel.y, sel.width, sel.height)`. `patchLayer x y` is
the value the canvas write leaves at an output pixel of the destination
rectangle (the src-over blend of the masked, rescaled patch with the
base); every pixel outside that rectangle keeps the base value. -/
def createComposite {α : Type} (base : Bitmap α) (patchLayer : ℤ → ℤ → α)
    (sel : SelectionBox) : Bitmap α :=
  let targetX := sel.x
  let targetY := sel.y
  let targetW := sel.width
  let targetH := sel.height
  { width := base.width
    height := base.height
    pix := fun px py =>
      if targetX ≤ px ∧ px < targetX + targetW ∧
          targetY ≤ py ∧ py < targetY + targetH then
        patchLayer px py
      else base.pix px py }

/-- A pixel strictly outside the selection rectangle expanded by `f` on
every side. -/
def strictlyOutside (sel : SelectionBox) (f : ℚ) (px py : ℤ) : Prop :=
  (px : ℚ) < sel.x - f ∨ (sel.x : ℚ) + sel.width + f < px ∨
    (py : ℚ) < sel.y - f ∨ (sel.y : ℚ) + sel.height + f < py

/-- Claim C2: for every base bitmap, every patch (entering through its
natural dimensions, which fix the feather radius, and through the blended
layer function) and every target box with nonnegative extent, the
composite has exactly the natural dimensions of the base, and every pixel
strictly outside the target box expanded by the feather radius is
identical to the corresponding base pixel. -/
theorem c2_composite_dims_and_locality {α : Type} (base : Bitmap α)
    (patchLayer : ℤ → ℤ → α) (patchW patchH : ℕ) (sel : SelectionBox)
    (hw : 0 ≤ sel.width) (hh : 0 ≤ sel.height) :
    (createComposite base patchLayer sel).width = base.width ∧
      (createComposite base patchLayer sel).height = base.height ∧
      ∀ px py : ℤ, strictlyOutside sel (feather patchW patchH) px py →
        (createComposite base patchLayer sel).pix px py = base.pix px py := by
  refine ⟨rfl, rfl, ?_⟩
  intro px py hout
  have hf : 0 ≤ feather patchW patchH := by
    unfold feather; positivity
  show (if sel.x ≤ px ∧ px < sel.x + sel.width ∧
      sel.y ≤ py ∧ py < sel.y + sel.height then
        patchLayer px py else base.pix px py) = base.pix px py
  rw [if_neg]
  rintro ⟨h1, h2, h3, h4⟩
  rcases hout with h | h | h | h
  · have : (sel.x : ℚ) ≤ (px : ℚ) := by exact_mod_cast h1
    linarith
  · have : (px : ℚ) < (sel.x : ℚ) + (sel.width : ℚ) := by exact_mod_cast h2
    linarith
  · have : (sel.y : ℚ) ≤ (py : ℚ) := by exact_mod_cast h3
    linarith
  · have : (py : ℚ) < (sel.y : ℚ) + (sel.height : ℚ) := by exact_mod_cast h4
    linarith

/-- A concrete base bitmap for the compositor witness. -/
def base0 : Bitmap ℕ := ⟨100, 80, fun px py => (px + py).natAbs⟩

/-- A concrete blended patch layer for the compositor witness. -/
def layer0 : ℤ → ℤ → ℕ := fun _ _ => 0

/-- A concrete selection for the compositor witness. -/
def sel0 : SelectionBox := ⟨30, 30, 20, 20⟩

theorem c2_witness :
    (createComposite base0 layer0 sel0).pix 0 0 = base0.pix 0 0 :=
  (c2_composite_dims_and_locality base0 layer0 64 64 sel0 (by norm_num [sel0])
    (by norm_num [sel0])).2.2 0 0
    (by norm_num [strictlyOutside, feather, sel0])

/-! ## Crop extractor (src/App.tsx, getCroppedImg)

The happy path computes the output canvas size (the rounded box size,
capped at 1024 preserving the aspect ratio) and draws the requested
source rectangle into it. The promise rejects only when the image fails
to load or when no canvas context is available; the selection box is
never compared against the source image bounds. The two Boolean
parameters model those two environment failure modes. -/

/-- The failure modes of getCroppedImg: image load error (`onerror`) and
a missing 2d canvas context. No box-dependent error exists. -/
inductive CropError where
  | imageLoadFailed
  | contextUnavailable
deriving DecidableEq, Repr

/-- The output of getCroppedImg: the canvas dimensions and the source
rectangle handed to drawImage. -/
structure CroppedOut where
  canvasW : ℤ
  canvasH : ℤ
  srcX : ℤ
  srcY : ℤ
  srcW : ℤ
  srcH : ℤ
deriving DecidableEq, Repr

/-- The 1024 cap of getCroppedImg: if a rounded box side exceeds 1024,
scale the longer side to 1024 and the other by the aspect ratio. -/
def capDims (w h : ℤ) : ℤ × ℤ :=
  let maxDim : ℤ := 1024
  if w > maxDim ∨ h > maxDim then
    let ratio : ℚ := (w : ℚ) / (h : ℚ)
    if w > h then (maxDim, jsRound ((maxDim : ℚ) / ratio))
    else (jsRound ((maxDim : ℚ) * ratio), maxDim)
  else (w, h)

/-- getCroppedImg: the box fields are integers, so the `Math.round`
calls are the identity; the canvas is sized by `capDims`, and drawImage
receives the box as the source rectangle. The source image bounds are
never consulted. -/
def getCroppedImg (loadOk ctxOk : Bool) (imgW imgH : ℕ)
    (pixelCrop : SelectionBox) : Except CropError CroppedOut :=
  if loadOk = false then .error .imageLoadFailed
  else if ctxOk = false then .error .contextUnavailable
  else .ok ⟨(capDims pixelCrop.width pixelCrop.height).1,
    (capDims pixelCrop.width pixelCrop.height).2,
    pixelCrop.x, pixelCrop.y, pixelCrop.width, pixelCrop.height⟩

/-- Claim C6 counterexample: on a 1000 by 1000 source image, the box at
(500,500) with side 600 extends to 1100, outside the source bounds, yet
getCroppedImg produces an image (a 600 by 600 canvas) instead of failing
with an InvalidRegion error; indeed no such error kind exists in the
code. -/
theorem c6_counterexample :
    getCroppedImg true true 1000 1000 ⟨500, 500, 600, 600⟩ =
        .ok ⟨600, 600, 500, 500, 600, 600⟩ ∧
      (500 : ℤ) + 600 > 1000 := by
  constructor
  · norm_num [getCroppedImg, capDims]
  · norm_num

/-- Claim C6 amended: the crop extractor performs no bounds validation.
For every source size and every selection box, in bounds or not, it
succeeds and produces an image whenever the image loads and a canvas
context exists; its only failure modes are independent of the box. -/
theorem c6_no_bounds_validation (imgW imgH : ℕ) (pixelCrop : SelectionBox) :
    ∃ out, getCroppedImg true true imgW imgH pixelCrop = .ok out := by
  exact ⟨_, rfl⟩

/-! ## Retry with exponential backoff (the gemini service source file)

`retry(fn, retries, delay)` runs `fn`; on failure it waits `delay`
milliseconds and recurses with `retries - 1` and `delay * 2`, but only
while `retries > 0` and the error is transient. `generateFaceSwap`
invokes it as `retry(generateOp, 3, 2000)`. The successive outcomes of
the generation operation are modelled as a function from the attempt
index; the result carries the list of delays waited, in order. The
`message.includes(...)` probes are modelled as Boolean fields of the
error value. -/

/-- An error thrown by the generation operation: HTTP-like status and
code plus the four message substrings the retry helper probes for. -/
structure GenError where
  status : Option ℕ
  code : Option ℕ
  msgDeadlineExpired : Bool
  msgUnavailable : Bool
  msgTimeout : Bool
  msgQuota : Bool
deriving DecidableEq, Repr

/-- The transient-error test of the retry helper. -/
def isTransient (e : GenError) : Bool :=
  e.status == some 429 || e.status == some 500 || e.status == some 502 ||
    e.status == some 503 || e.code == some 503 ||
    e.status == some 504 || e.code == some 504 ||
    e.msgDeadlineExpired || e.msgUnavailable || e.msgTimeout || e.msgQuota

/-- The retry helper. `attempts k` is the outcome of the `k`-th call of
the wrapped operation; the second component lists the waits performed. -/
def retry (attempts : ℕ → Except GenError ℕ) :
    ℕ → ℕ → ℕ → Except GenError ℕ × List ℕ
  | k, 0, _ => (attempts k, [])
  | k, retries + 1, delay =>
      match attempts k with
      | .ok v => (.ok v, [])
      | .error e =>
          if isTransient e then
            ((retry attempts (k + 1) retries (delay * 2)).1,
              delay :: (retry attempts (k + 1) retries (delay * 2)).2)
          else (.error e, [])

/-- The retry invocation of generateFaceSwap:
`retry(generateOp, 3, 2000)`, starting at attempt index 0. -/
def generateFaceSwap (attempts : ℕ → Except GenError ℕ) :
    Except GenError ℕ × List ℕ :=
  retry attempts 0 3 2000

/-- The RateLimited error: HTTP status 429, no code, no probed message
substrings. -/
def rateLimited : GenError := ⟨some 429, none, false, false, false, false⟩

/-- Claim C5: when the generation operation keeps failing with a
retryable error such as RateLimited, the caller performs exactly 3
retries with the inter-attempt delays doubling from the 2000 ms base
(2000, 4000, 8000) and then surfaces the generation failure; and a
non-retryable error is never retried (no delay is ever waited and the
error surfaces at once). -/
theorem c5_retry_policy :
    (∀ (attempts : ℕ → Except GenError ℕ) (e : GenError),
        (∀ k, attempts k = .error e) → isTransient e = true →
          generateFaceSwap attempts = (.error e, [2000, 4000, 8000])) ∧
      ∀ (attempts : ℕ → Except GenError ℕ) (e : GenError),
        attempts 0 = .error e → isTransient e = false →
          generateFaceSwap attempts = (.error e, []) := by
  constructor
  · intro attempts e h ht
    simp [generateFaceSwap, retry, h 0, h 1, h 2, h 3, ht]
  · intro attempts e h0 hn
    simp [generateFaceSwap, retry, h0, hn]

theorem c5_witness :
    generateFaceSwap (fun _ => .error rateLimited) =
      (.error rateLimited, [2000, 4000, 8000]) :=
  c5_retry_policy.1 (fun _ => .error rateLimited) rateLimited
    (fun _ => rfl) (by decide)

/-! ## Application session state (src/App.tsx)

The App component state restricted to the fields the temporal claims
need, with images named by numeric identifiers. The offscreen composite
canvas is recorded as the triple of inputs it was built from, because
createComposite is a pure function of those three inputs. The composite
effect runs after every state transition; when result, reference or
selection is missing it returns without touching the stored composite,
exactly like the early return of the source effect. The API-key
acquisition branch of handleGenerate is outside the model: the claims
concern sessions where a key is present. Error messages are identified
by numbers; 0 stands for the missing-inputs message. -/

/-- The App session state. -/
structure AppSt where
  characterImage : Option ℕ
  referenceImage : Option ℕ
  selection : Option SelectionBox
  isGenerating : Bool
  resultImage : Option ℕ
  error : Option ℕ
  sliderPosition : ℚ
  offscreen : Option (ℕ × ℕ × SelectionBox)
deriving DecidableEq, Repr

/-- The stitch-generation effect: when a result, a reference and a
selection are all present, rebuild the offscreen composite from them;
otherwise return leaving the stored composite untouched. -/
def compositeEffect (s : AppSt) : AppSt :=
  match s.resultImage, s.referenceImage, s.selection with
  | some r, some ref, some sel => { s with offscreen := some (ref, r, sel) }
  | _, _, _ => s

/-- Session events: reference upload, a selection notification from the
overlay, the synchronous start of handleGenerate, the arrival of the
in-flight generation outcome, a compare-slider move, and the clear-result
button. -/
inductive AppEv where
  | uploadReference (img : ℕ)
  | select (b : Option SelectionBox)
  | genStart
  | genSuccess (r : ℕ)
  | genFailure (m : ℕ)
  | setSlider (p : ℚ)
  | clearResult
deriving DecidableEq, Repr

/-- The raw state transition of each handler, before the composite
effect. `genStart` is the synchronous prefix of handleGenerate: validate
inputs, then set isGenerating, clear the error and clear the previous
result. `genSuccess` and `genFailure` are the two ways the awaited
generation settles: the result is stored, or the error message is
surfaced, with no staleness check in either branch, and the `finally`
clause clears isGenerating. -/
def appStepRaw (s : AppSt) : AppEv → AppSt
  | .uploadReference img =>
      { s with
          referenceImage := some img
          selection := none
          resultImage := none
          sliderPosition := 50 }
  | .select b => { s with selection := b }
  | .genStart =>
      match s.characterImage, s.referenceImage, s.selection with
      | some _, some _, some sel =>
          if sel.width ≤ 0 ∨ sel.height ≤ 0 then s
          else { s with isGenerating := true, error := none, resultImage := none }
      | _, _, _ => { s with error := some 0 }
  | .genSuccess r => { s with resultImage := some r, isGenerating := false }
  | .genFailure m => { s with error := some m, isGenerating := false }
  | .setSlider p => { s with sliderPosition := p }
  | .clearResult => { s with resultImage := none }

/-- One session step: the handler transition followed by the composite
effect. -/
def appStep (s : AppSt) (e : AppEv) : AppSt :=
  compositeEffect (appStepRaw s e)

/-- Run a list of session events. -/
def appRun (s : AppSt) (es : List AppEv) : AppSt := es.foldl appStep s

/-- The session start state with a character image already loaded. -/
def appInit0 : AppSt := ⟨some 0, none, none, false, none, none, 50, none⟩

/-- A committed selection used by the concrete session traces. -/
def b0 : SelectionBox := ⟨100, 100, 200, 200⟩

/-- The C4 scenario trace: load reference 1, select a box, start a
generation, load reference 2 while the request is in flight, then the
stale result 7 arrives. -/
def staleTrace : List AppEv :=
  [.uploadReference 1, .select (some b0), .genStart, .uploadReference 2,
    .genSuccess 7]

lemma compositeEffect_of_selection_none (s : AppSt) (h : s.selection = none) :
    compositeEffect s = s := by
  obtain ⟨c, ref, sel, g, res, err, sl, off⟩ := s
  simp only at h
  subst h
  unfold compositeEffect
  cases res <;> cases ref <;> rfl

lemma compositeEffect_of_result_none (s : AppSt) (h : s.resultImage = none) :
    compositeEffect s = s := by
  obtain ⟨c, ref, sel, g, res, err, sl, off⟩ := s
  simp only at h
  subst h
  unfold compositeEffect
  rfl

/-- Claim C4 counterexample: running the stale-generation scenario, the
in-flight result 7 is not discarded on arrival — it is stored into the
result state of the session that now holds reference 2, because
handleGenerate applies setResultImage without any staleness check. The
claim predicts the result state would remain empty. -/
theorem c4_counterexample :
    (appRun appInit0 staleTrace).resultImage = some 7 ∧
      (appRun appInit0 staleTrace).referenceImage = some 2 := by
  constructor <;> rfl

/-- Claim C4 amended: handleGenerate has no staleness guard, so a stale
in-flight result is stored into the result state when it arrives; but no
composite is built from it, because uploading the second reference
cleared the selection and the composite effect returns early whenever the
selection is absent. The captured-at-start relevance flag of the source
lives only in the composite effect, not in the generation path. -/
theorem c4_stale_result_stored_but_no_composite (s : AppSt) (r : ℕ)
    (h : s.selection = none) :
    (appStep s (.genSuccess r)).resultImage = some r ∧
      (appStep s (.genSuccess r)).isGenerating = false ∧
      (appStep s (.genSuccess r)).offscreen = s.offscreen ∧
      (appStep s (.genSuccess r)).referenceImage = s.referenceImage ∧
      (appStep s (.genSuccess r)).selection = none ∧
      (appStep s (.genSuccess r)).sliderPosition = s.sliderPosition := by
  have hs : appStep s (.genSuccess r) =
      { s with resultImage := some r, isGenerating := false } := by
    unfold appStep appStepRaw
    exact compositeEffect_of_selection_none _ (by simp [appStepRaw, h])
  rw [hs]
  exact ⟨rfl, rfl, rfl, rfl, h, rfl⟩

theorem c4_witness :
    (appStep (appRun appInit0 [.uploadReference 1]) (.genSuccess 5)).resultImage =
        some 5 ∧
      (appStep (appRun appInit0 [.uploadReference 1]) (.genSuccess 5)).offscreen =
        (appRun appInit0 [.uploadReference 1]).offscreen :=
  ⟨(c4_stale_result_stored_but_no_composite
      (appRun appInit0 [.uploadReference 1]) 5 rfl).1,
    (c4_stale_result_stored_but_no_composite
      (appRun appInit0 [.uploadReference 1]) 5 rfl).2.2.1⟩

/-- The C7 scenario prefix: a full successful session, leaving a held
generation result 5 and its composite. -/
def successTrace : List AppEv :=
  [.uploadReference 1, .select (some b0), .genStart, .genSuccess 5]

/-- Claim C7 counterexample: starting from a session that holds the
generation result 5, running another generation that fails leaves the
result state empty — the previously held result is gone, because
handleGenerate clears it synchronously at generation start and the
failure path never restores it. The claim predicts the prior result
would still be present. -/
theorem c7_counterexample :
    (appRun appInit0 successTrace).resultImage = some 5 ∧
      (appRun appInit0 (successTrace ++ [.genStart, .genFailure 9])).resultImage
        = none ∧
      (appRun appInit0 (successTrace ++ [.genStart, .genFailure 9])).error
        = some 9 := by
  refine ⟨rfl, rfl, rfl⟩

/-- Claim C7 amended: after a failed generation the error message is
surfaced and the input state — character image, reference image,
selection, slider and the previously built offscreen composite — is left
intact, but the previously held generation result is not: it is cleared
at generation start and remains cleared after the failure. -/
theorem c7_failure_keeps_inputs_but_clears_result (s : AppSt) (m : ℕ)
    (c ref : ℕ) (sel : SelectionBox)
    (hc : s.characterImage = some c) (href : s.referenceImage = some ref)
    (hsel : s.selection = some sel) (hwpos : 0 < sel.width)
    (hhpos : 0 < sel.height) :
    (appRun s [.genStart, .genFailure m]).error = some m ∧
      (appRun s [.genStart, .genFailure m]).resultImage = none ∧
      (appRun s [.genStart, .genFailure m]).isGenerating = false ∧
      (appRun s [.genStart, .genFailure m]).characterImage = s.characterImage ∧
      (appRun s [.genStart, .genFailure m]).referenceImage = s.referenceImage ∧
      (appRun s [.genStart, .genFailure m]).selection = s.selection ∧
      (appRun s [.genStart, .genFailure m]).sliderPosition = s.sliderPosition ∧
      (appRun s [.genStart, .genFailure m]).offscreen = s.offscreen := by
  have hcond : ¬ (sel.width ≤ 0 ∨ sel.height ≤ 0) := by omega
  have hraw : appStepRaw s .genStart =
      { s with isGenerating := true, error := none, resultImage := none } := by
    unfold appStepRaw
    rw [hc, href, hsel]
    exact if_neg hcond
  have h1 : appStep s .genStart =
      { s with isGenerating := true, error := none, resultImage := none } := by
    unfold appStep
    rw [hraw]
    exact compositeEffect_of_result_none _ rfl
  have h2 : appRun s [.genStart, .genFailure m] =
      { s with isGenerating := false, error := some m, resultImage := none } := by
    show appStep (appStep s .genStart) (.genFailure m) = _
    rw [h1]
    unfold appStep appStepRaw
    exact compositeEffect_of_result_none _ rfl
  rw [h2]
  exact ⟨rfl, rfl, rfl, rfl, rfl, rfl, rfl, rfl⟩

theorem c7_witness :
    (appRun (appRun appInit0 successTrace) [.genStart, .genFailure 9]).error
        = some 9 ∧
      (appRun (appRun appInit0 successTrace) [.genStart, .genFailure 9]).offscreen
        = (appRun appInit0 successTrace).offscreen :=
  ⟨(c7_failure_keeps_inputs_but_clears_result (appRun appInit0 successTrace)
      9 0 1 b0 rfl rfl rfl (by norm_num [b0]) (by norm_num [b0])).1,
    (c7_failure_keeps_inputs_but_clears_result (appRun appInit0 successTrace)
      9 0 1 b0 rfl rfl rfl (by norm_num [b0]) (by norm_num [b0])).2.2.2.2.2.2.2⟩

/-- The C9 scenario trace: after a successful generation the user moves
the compare slider to 80 percent and then runs a second generation,
whose result 6 arrives and produces a new composite. -/
def secondGenTrace : List AppEv :=
  successTrace ++ [.setSlider 80, .genStart, .genSuccess 6]

/-- Claim C9 counterexample: when the second generation result arrives, a
new composite is produced from it, yet the compare split stays at 80
percent instead of being reset to the 50 percent default — the source
resets the slider only in handleReferenceUpload, not when a result
arrives. -/
theorem c9_counterexample :
    (appRun appInit0 secondGenTrace).offscreen = some (1, 6, b0) ∧
      (appRun appInit0 secondGenTrace).sliderPosition = 80 := by
  constructor
  · rfl
  · show (80 : ℚ) = 80
    rfl

/-- Claim C9 amended: the compare split position is reset to its 50
percent default only when a new reference image is loaded; the arrival of
a generation result (which is what produces a new composite) leaves the
slider position unchanged. -/
theorem c9_slider_reset_only_on_upload (s : AppSt) (r img : ℕ) :
    (appStep s (.genSuccess r)).sliderPosition = s.sliderPosition ∧
      (appStep s (.uploadReference img)).sliderPosition = 50 := by
  constructor
  · unfold appStep appStepRaw compositeEffect
    rcases s with ⟨c, ref, sel, g, res, err, sl, off⟩
    cases ref <;> cases sel <;> rfl
  · unfold appStep appStepRaw compositeEffect
    rcases s with ⟨c, ref, sel, g, res, err, sl, off⟩
    rfl
